import Mathlib

/-!
# Smart Farming Assistant — advisory engine, shallow embedding

This file embeds the pure advisory functions of the Smart Farming Assistant
backend (`main.py`): `simple_disease_pest_risk`, `irrigation_schedule`,
`climate_advice`, `simple_yield_forecast`, `rotation_plan` and
`market_trends`, together with the record types from `schemas.py`, and
proves properties of them.

Numeric record fields are IEEE binary64 values in the source; every finite
binary64 value is a rational number, so values are embedded as `ℚ`.  The
only places the source performs floating-point *arithmetic* (as opposed to
comparisons against exactly representable thresholds) are the yield
modifier accumulation and the final `base * modifier` product in
`simple_yield_forecast`.  Those operations are embedded exactly by `fl`,
binary64 rounding (round to nearest, ties to even, 53 significant bits) of
an exact rational result.  Exponent overflow/underflow cannot occur here:
every intermediate value lies well inside the normal range.  All helper
arithmetic is built from `mkRat`, `Rat.num`, `Rat.den` and machine-level
`Nat`/`Int` operations so that every definition evaluates by kernel
reduction.

Python truthiness (`if x and x >= t:` on optional fields) is embedded
faithfully: an optional float passes the guard iff it is present *and
nonzero*, an optional string iff present and non-empty, an optional list
iff present and non-empty.  Python `str.lower` is embedded for the ASCII
range (all strings the rules compare against are ASCII), and `"a" in b`
as substring containment.
-/

namespace Farm

/-! ### Exact binary64 rounding over ℚ -/

/-- Fuel-driven structural ⌊log₂⌋ on naturals (`natLog2Fuel n n` is exact
for `n ≥ 1`). -/
def natLog2Fuel : ℕ → ℕ → ℕ
  | 0, _ => 0
  | fuel + 1, n => if 2 ≤ n then natLog2Fuel fuel (n / 2) + 1 else 0

/-- Floor of log₂ for `n ≥ 1` (0 at 0). -/
def nlog2 (n : ℕ) : ℕ := natLog2Fuel n n

/-- The rational `2 ^ k`, for an integer exponent. -/
def pow2 : ℤ → ℚ
  | Int.ofNat k => mkRat (Int.ofNat (2 ^ k)) 1
  | Int.negSucc k => mkRat 1 (2 ^ (k + 1))

/-- Exact rational negation, written without the sealed `Rat.neg`. -/
def ratNeg (q : ℚ) : ℚ := mkRat (-q.num) q.den

/-- Exact rational addition, written without the sealed `Rat.add`. -/
def qAdd (a b : ℚ) : ℚ := mkRat (a.num * (b.den : ℤ) + b.num * (a.den : ℤ)) (a.den * b.den)

/-- Exact rational subtraction. -/
def qSub (a b : ℚ) : ℚ := qAdd a (ratNeg b)

/-- Exact rational multiplication, written without the sealed `Rat.mul`. -/
def qMul (a b : ℚ) : ℚ := mkRat (a.num * b.num) (a.den * b.den)

/-- Round `a / b` (`b ≠ 0`) to a natural number, half to even. -/
def roundHalfEvenNat (a b : ℕ) : ℕ :=
  if 2 * (a % b) < b then a / b
  else if b < 2 * (a % b) then a / b + 1
  else if (a / b) % 2 = 0 then a / b else a / b + 1

/-- Binary64 rounding of a positive rational: scale so the significand has
53 bits, round it half to even, scale back. -/
def flPos (q : ℚ) : ℚ :=
  let n : ℕ := q.num.toNat
  let d : ℕ := q.den
  let e0 : ℤ := (nlog2 n : ℤ) - (nlog2 d : ℤ)
  let e : ℤ := if pow2 e0 ≤ q then e0 else e0 - 1
  let s : ℤ := 52 - e
  if 0 ≤ s then mkRat (Int.ofNat (roundHalfEvenNat (n * 2 ^ s.toNat) d)) (2 ^ s.toNat)
  else mkRat (Int.ofNat (roundHalfEvenNat n (d * 2 ^ (-s).toNat) * 2 ^ (-s).toNat)) 1

/-- Binary64 rounding (round to nearest, ties to even) of an exact
rational result. -/
def fl (q : ℚ) : ℚ :=
  if q = 0 then 0 else if q < 0 then ratNeg (flPos (ratNeg q)) else flPos q

/-- Correctly rounded binary64 addition. -/
def fAdd (a b : ℚ) : ℚ := fl (qAdd a b)

/-- Correctly rounded binary64 subtraction. -/
def fSub (a b : ℚ) : ℚ := fl (qSub a b)

/-- Correctly rounded binary64 multiplication. -/
def fMul (a b : ℚ) : ℚ := fl (qMul a b)

/-- The binary64 value denoted by the source literal `0.15`. -/
def dbl015 : ℚ := fl (mkRat 15 100)

/-- The binary64 value denoted by the source literal `0.05`. -/
def dbl005 : ℚ := fl (mkRat 5 100)

/-- The binary64 value denoted by the source literal `0.1`. -/
def dbl01 : ℚ := fl (mkRat 1 10)

/-- Python `int()` applied to a float value: truncation toward zero. -/
def pyInt (q : ℚ) : ℤ := if 0 ≤ q then ⌊q⌋ else ⌈q⌉

/-! ### Python string operations (ASCII) -/

/-- ASCII lower-casing of one character. -/
def lowerChar (c : Char) : Char :=
  if 65 ≤ c.toNat ∧ c.toNat ≤ 90 then Char.ofNat (c.toNat + 32) else c

/-- Python `str.lower()` on the ASCII range. -/
def lowerStr (s : String) : String := String.mk (s.data.map lowerChar)

/-- Substring occurrence on character lists. -/
def hasSubstrAux : List Char → List Char → Bool
  | [], needle => needle.isEmpty
  | c :: rest, needle => needle.isPrefixOf (c :: rest) || hasSubstrAux rest needle

/-- Python `needle in hay` on strings: substring containment. -/
def strContains (hay needle : String) : Bool := hasSubstrAux hay.data needle.data

/-! ### Python truthiness on optional fields -/

/-- A field is present when it is not `None`. -/
abbrev present {α : Type} (x : Option α) : Prop := x ≠ none

/-- Value of an optional float (junk default 0 when absent). -/
def floatVal (x : Option ℚ) : ℚ := x.getD 0

/-- Python truthiness of an optional float: present and nonzero. -/
abbrev floatTruthy (x : Option ℚ) : Prop := present x ∧ floatVal x ≠ 0

/-- Value of an optional string (junk default `""` when absent). -/
def strVal (x : Option String) : String := x.getD ""

/-- Python truthiness of an optional string: present and non-empty. -/
abbrev strTruthy (x : Option String) : Prop := present x ∧ strVal x ≠ ""

/-- Value of an optional list (junk default `[]` when absent). -/
def listVal (x : Option (List String)) : List String := x.getD []

/-- Python truthiness of an optional list: present and non-empty. -/
abbrev listTruthy (x : Option (List String)) : Prop := present x ∧ listVal x ≠ []

/-! ### Data model (`schemas.py`) -/

/-- Farmer profile record (`Farmerprofile` in `schemas.py`); `name` is the
only required field, the optional ones default exactly as in the schema
(`None`, with the two list fields defaulting to an empty list). -/
structure Farmerprofile where
  name : String
  phone : Option String := none
  location_text : Option String := none
  gps_lat : Option ℚ := none
  gps_lng : Option ℚ := none
  farm_size_ha : Option ℚ := none
  soil_type : Option String := none
  elevation_m : Option ℚ := none
  irrigation_method : Option String := none
  water_source : Option String := none
  farming_practices : Option (List String) := some []
  crop_history : Option (List String) := some []
  surrounding_env : Option String := none
deriving DecidableEq

/-- Soil test record (`Soiltest` in `schemas.py`). -/
structure Soiltest where
  farmer_id : Option String := none
  ph : Option ℚ := none
  nitrogen_ppm : Option ℚ := none
  phosphorus_ppm : Option ℚ := none
  potassium_ppm : Option ℚ := none
  organic_matter_pct : Option ℚ := none
  ec_dS_m : Option ℚ := none
deriving DecidableEq

/-- Field observation record (`Farmobservation` in `schemas.py`). -/
structure Farmobservation where
  farmer_id : Option String := none
  target_crop : Option String := none
  temp_c : Option ℚ := none
  humidity_pct : Option ℚ := none
  rainfall_mm : Option ℚ := none
  wind_kph : Option ℚ := none
  pest_signs : Option (List String) := some []
  disease_signs : Option (List String) := some []
  notes : Option String := none
deriving DecidableEq

/-- Result of `simple_disease_pest_risk`: the two Python dicts have a fixed
key universe, so they are embedded as one record with an optional value
per key (`none` = key absent); `disease["fungal_general"]` is always set. -/
structure Riskmaps where
  disease_fungal_general : String
  disease_washout_root_rot : Option String
  disease_observed_signs : Option String
  pest_borers_aphids_general : Option String
  pest_observed_signs : Option String
deriving DecidableEq

/-- Result of `irrigation_schedule`. -/
structure Schedule where
  frequency_days : ℕ
  amount_mm : ℕ
  notes : List String
deriving DecidableEq

/-- Result of `simple_yield_forecast`. -/
structure Forecast where
  crop : String
  yield_kg_per_ha : ℤ
deriving DecidableEq

/-- One market-trend record produced by `market_trends`. -/
structure Trend where
  crop : String
  avg_price : ℚ
  unit : String
  demand : String
  location : Option String
deriving DecidableEq

/-! ### The advisory functions (`main.py`) -/

/-- Source function `simple_disease_pest_risk` (`main.py`): threshold rules on one
observation.  The two `temp_c` rules are sequential assignments to the
same key, the second overwriting the first. -/
def simple_disease_pest_risk (obs : Farmobservation) : Riskmaps :=
  let fungal : String :=
    if floatTruthy obs.humidity_pct ∧ 80 ≤ floatVal obs.humidity_pct then "high"
    else if floatTruthy obs.humidity_pct ∧ 60 ≤ floatVal obs.humidity_pct then "medium"
    else "low"
  let borers : Option String := none
  let borers : Option String :=
    if floatTruthy obs.temp_c ∧ 28 ≤ floatVal obs.temp_c then some "medium" else borers
  let borers : Option String :=
    if floatTruthy obs.temp_c ∧ 32 ≤ floatVal obs.temp_c then some "high" else borers
  let washout : Option String :=
    if floatTruthy obs.rainfall_mm ∧ 50 < floatVal obs.rainfall_mm then some "medium" else none
  let pestSigns : Option String :=
    if listTruthy obs.pest_signs ∧ 0 < (listVal obs.pest_signs).length then some "high" else none
  let diseaseSigns : Option String :=
    if listTruthy obs.disease_signs ∧ 0 < (listVal obs.disease_signs).length then some "high"
    else none
  { disease_fungal_general := fungal
    disease_washout_root_rot := washout
    disease_observed_signs := diseaseSigns
    pest_borers_aphids_general := borers
    pest_observed_signs := pestSigns }

/-- Note text appended for sandy soils. -/
def sandyNote : String :=
  "Sandy soils drain fast; irrigate more frequently with smaller amounts."

/-- Note text appended for clay soils. -/
def clayNote : String :=
  "Clay soils retain water longer; reduce frequency but increase amount."

/-- Note text appended after recent rainfall. -/
def rainNote : String :=
  "Recent rainfall detected; skip next irrigation if field is moist."

/-- Note text appended for drip irrigation. -/
def dripNote : String :=
  "Using drip? Split daily in small doses for uniform moisture."

/-- Source function `irrigation_schedule` (`main.py`): default 3 days / 20 mm, adjusted by
a case-sensitive soil-type lookup, then rainfall and drip notes. -/
def irrigation_schedule (profile : Option Farmerprofile) (soil : Option Soiltest)
    (obs : Option Farmobservation) : Schedule :=
  let soil_type : Option String := Option.bind profile Farmerprofile.soil_type
  let schedule : Schedule :=
    if soil_type ∈ [some "sandy", some "sandy loam", some "loamy sand"] then
      { frequency_days := 2, amount_mm := 15, notes := [sandyNote] }
    else if soil_type ∈ [some "loam", some "loamy"] then
      { frequency_days := 3, amount_mm := 20, notes := [] }
    else if soil_type ∈ [some "clay", some "clayey", some "silty clay"] then
      { frequency_days := 4, amount_mm := 25, notes := [clayNote] }
    else { frequency_days := 3, amount_mm := 20, notes := [] }
  let schedule : Schedule :=
    if floatTruthy (Option.bind obs Farmobservation.rainfall_mm) ∧
        15 ≤ floatVal (Option.bind obs Farmobservation.rainfall_mm) then
      { schedule with notes := schedule.notes ++ [rainNote] }
    else schedule
  let schedule : Schedule :=
    if Option.bind profile Farmerprofile.irrigation_method = some "drip" then
      { schedule with notes := schedule.notes ++ [dripNote] }
    else schedule
  schedule

/-- Tip appended near forests. -/
def forestTip : String :=
  "Watch for wildlife and pest pressure near forest edges; use traps and barriers."

/-- Tip appended in high wind. -/
def windTip : String :=
  "High winds expected; stake young plants and secure mulches or covers."

/-- Tip appended in heat. -/
def heatTip : String :=
  "Heat stress risk; irrigate early morning, add shade nets for seedlings."

/-- Tip appended in cold. -/
def coldTip : String :=
  "Cold stress risk; consider row covers or mulches to retain soil heat."

/-- Unconditional mulching tip. -/
def mulchTip : String := "Adopt mulching to conserve moisture and suppress weeds."

/-- Unconditional IPM tip. -/
def ipmTip : String :=
  "Use integrated pest management (IPM): monitoring, thresholds, biological controls."

/-- Source function `climate_advice` (`main.py`): four conditional tips then two
unconditional ones, in source order. -/
def climate_advice (profile : Option Farmerprofile) (obs : Option Farmobservation) :
    List String :=
  let env : Option String := Option.bind profile Farmerprofile.surrounding_env
  let tips : List String := []
  let tips : List String :=
    if strTruthy env ∧ strContains (strVal env) "forest" = true then tips ++ [forestTip]
    else tips
  let tips : List String :=
    if floatTruthy (Option.bind obs Farmobservation.wind_kph) ∧
        30 < floatVal (Option.bind obs Farmobservation.wind_kph) then tips ++ [windTip]
    else tips
  let tips : List String :=
    if floatTruthy (Option.bind obs Farmobservation.temp_c) ∧
        35 < floatVal (Option.bind obs Farmobservation.temp_c) then tips ++ [heatTip]
    else tips
  let tips : List String :=
    if floatTruthy (Option.bind obs Farmobservation.temp_c) ∧
        floatVal (Option.bind obs Farmobservation.temp_c) < 10 then tips ++ [coldTip]
    else tips
  tips ++ [mulchTip, ipmTip]

/-- The fixed base-yield table of `simple_yield_forecast` (kg/ha). -/
def base_yields : List (String × ℚ) :=
  [("wheat", 3500), ("rice", 4500), ("maize", 5000), ("soybean", 2500),
   ("cotton", 2200), ("potato", 20000), ("tomato", 30000)]

/-- Crop resolution of `simple_yield_forecast`: the observation's truthy
`target_crop`, else the last entry of a truthy crop history, else
`"wheat"`; lower-cased. -/
def resolveCrop (profile : Option Farmerprofile) (obs : Option Farmobservation) : String :=
  lowerStr
    (if strTruthy (Option.bind obs Farmobservation.target_crop) then
      strVal (Option.bind obs Farmobservation.target_crop)
    else if listTruthy (Option.bind profile Farmerprofile.crop_history) then
      (listVal (Option.bind profile Farmerprofile.crop_history)).getLastD ""
    else "wheat")

/-- Lookup `base_yields.get(crop, 3000)`. -/
def baseFor (crop : String) : ℚ := (List.lookup crop base_yields).getD 3000

/-- The yield modifier accumulation of `simple_yield_forecast`, with each
binary64 subtraction/addition rounded exactly as the hardware rounds it. -/
def modifierOf (soil : Option Soiltest) (obs : Option Farmobservation) : ℚ :=
  let m : ℚ := 1
  let m : ℚ :=
    if floatTruthy (Option.bind soil Soiltest.ph) ∧
        (floatVal (Option.bind soil Soiltest.ph) < mkRat 11 2 ∨
          mkRat 17 2 < floatVal (Option.bind soil Soiltest.ph)) then fSub m dbl015
    else m
  let m : ℚ :=
    if floatTruthy (Option.bind soil Soiltest.organic_matter_pct) ∧
        2 ≤ floatVal (Option.bind soil Soiltest.organic_matter_pct) then fAdd m dbl005
    else m
  let m : ℚ :=
    if floatTruthy (Option.bind obs Farmobservation.rainfall_mm) ∧
        floatVal (Option.bind obs Farmobservation.rainfall_mm) < 10 then fSub m dbl01
    else m
  let m : ℚ :=
    if floatTruthy (Option.bind obs Farmobservation.humidity_pct) ∧
        85 < floatVal (Option.bind obs Farmobservation.humidity_pct) then fSub m dbl005
    else m
  m

/-- Source function `simple_yield_forecast` (`main.py`). -/
def simple_yield_forecast (profile : Option Farmerprofile) (soil : Option Soiltest)
    (obs : Option Farmobservation) : Forecast :=
  { crop := resolveCrop profile obs
    yield_kg_per_ha := pyInt (fMul (baseFor (resolveCrop profile obs)) (modifierOf soil obs)) }

/-- Rotation list after rice/wheat/maize. -/
def rotationAfterCereal : List String :=
  ["legume (soybean/chickpea)", "oilseed (mustard/sunflower)", "vegetable (tomato/onion)"]

/-- Rotation list after cotton/sugarcane. -/
def rotationAfterCashCrop : List String :=
  ["pulse (cowpea/green gram)", "cereal (maize)", "forage (sorghum/berseem)"]

/-- Default rotation list. -/
def rotationDefault : List String := ["cereal", "legume", "vegetable"]

/-- Source function `rotation_plan` (`main.py`). -/
def rotation_plan (profile : Option Farmerprofile) : List String :=
  let lastCrop : Option String :=
    if listTruthy (Option.bind profile Farmerprofile.crop_history) then
      some (lowerStr ((listVal (Option.bind profile Farmerprofile.crop_history)).getLastD ""))
    else none
  if lastCrop ∈ [some "rice", some "wheat", some "maize"] then rotationAfterCereal
  else if lastCrop ∈ [some "cotton", some "sugarcane"] then rotationAfterCashCrop
  else rotationDefault

/-- Source function `market_trends` (`main.py`): the fallback synthetic list (the optional
external fetch is a no-op `pass`).  The price literals are binary64
values. -/
def market_trends (location_text : Option String) (crop : Option String) : List Trend :=
  [{ crop := if strTruthy crop then strVal crop else "wheat", avg_price := fl (mkRat 215 10),
     unit := "INR/kg", demand := "rising", location := location_text },
   { crop := "tomato", avg_price := fl (mkRat 142 10), unit := "INR/kg", demand := "stable",
     location := location_text },
   { crop := "onion", avg_price := fl (mkRat 187 10), unit := "INR/kg", demand := "high",
     location := location_text }]

/-! ### Claim-side definitions

Each definition below is written from the wording of a specification
claim (not from the source) and is compared against the source embedding
by the theorems that follow. -/

/-- Claim C1's modifier as worded: starts at 1.0; each adjustment is an
exact additive term applied exactly when its condition holds on a present
field (no truthiness, no rounding). -/
def claimC1modifier (soil : Option Soiltest) (obs : Option Farmobservation) : ℚ :=
  let m : ℚ := 1
  let m : ℚ :=
    if present (Option.bind soil Soiltest.ph) ∧
        (floatVal (Option.bind soil Soiltest.ph) < mkRat 11 2 ∨
          mkRat 17 2 < floatVal (Option.bind soil Soiltest.ph)) then qSub m (mkRat 15 100)
    else m
  let m : ℚ :=
    if present (Option.bind soil Soiltest.organic_matter_pct) ∧
        2 ≤ floatVal (Option.bind soil Soiltest.organic_matter_pct) then qAdd m (mkRat 5 100)
    else m
  let m : ℚ :=
    if present (Option.bind obs Farmobservation.rainfall_mm) ∧
        floatVal (Option.bind obs Farmobservation.rainfall_mm) < 10 then qSub m (mkRat 1 10)
    else m
  let m : ℚ :=
    if present (Option.bind obs Farmobservation.humidity_pct) ∧
        85 < floatVal (Option.bind obs Farmobservation.humidity_pct) then qSub m (mkRat 5 100)
    else m
  m

/-- Claim C1's yield: `floor(base_yield × modifier)` in exact arithmetic. -/
def claimC1yield (profile : Option Farmerprofile) (soil : Option Soiltest)
    (obs : Option Farmobservation) : ℤ :=
  ⌊qMul (baseFor (resolveCrop profile obs)) (claimC1modifier soil obs)⌋

/-- The C1 modifier as amended: binary64 adjustments in source order; the
pH and rainfall conditions additionally require the field to be nonzero
(Python truthiness); the other two conditions already force nonzero. -/
def amendedC1modifier (soil : Option Soiltest) (obs : Option Farmobservation) : ℚ :=
  let m : ℚ := 1
  let m : ℚ :=
    if present (Option.bind soil Soiltest.ph) ∧ floatVal (Option.bind soil Soiltest.ph) ≠ 0 ∧
        (floatVal (Option.bind soil Soiltest.ph) < mkRat 11 2 ∨
          mkRat 17 2 < floatVal (Option.bind soil Soiltest.ph)) then fSub m dbl015
    else m
  let m : ℚ :=
    if present (Option.bind soil Soiltest.organic_matter_pct) ∧
        2 ≤ floatVal (Option.bind soil Soiltest.organic_matter_pct) then fAdd m dbl005
    else m
  let m : ℚ :=
    if present (Option.bind obs Farmobservation.rainfall_mm) ∧
        floatVal (Option.bind obs Farmobservation.rainfall_mm) ≠ 0 ∧
        floatVal (Option.bind obs Farmobservation.rainfall_mm) < 10 then fSub m dbl01
    else m
  let m : ℚ :=
    if present (Option.bind obs Farmobservation.humidity_pct) ∧
        85 < floatVal (Option.bind obs Farmobservation.humidity_pct) then fSub m dbl005
    else m
  m

/-- Claim C2's conditional tip list as worded: each tip appears exactly
when its condition holds, in the fixed order. -/
def claimC2tips (profile : Option Farmerprofile) (obs : Option Farmobservation) :
    List String :=
  (if present (Option.bind profile Farmerprofile.surrounding_env) ∧
      strContains (strVal (Option.bind profile Farmerprofile.surrounding_env)) "forest" = true
    then [forestTip] else []) ++
  (if present (Option.bind obs Farmobservation.wind_kph) ∧
      30 < floatVal (Option.bind obs Farmobservation.wind_kph) then [windTip] else []) ++
  (if present (Option.bind obs Farmobservation.temp_c) ∧
      35 < floatVal (Option.bind obs Farmobservation.temp_c) then [heatTip] else []) ++
  (if present (Option.bind obs Farmobservation.temp_c) ∧
      floatVal (Option.bind obs Farmobservation.temp_c) < 10 then [coldTip] else [])

/-- The C2 conditional tip list as amended: the cold-stress condition
additionally requires a nonzero temperature (Python truthiness); the
other three conditions already force their field nonzero/non-empty. -/
def amendedC2tips (profile : Option Farmerprofile) (obs : Option Farmobservation) :
    List String :=
  (if present (Option.bind profile Farmerprofile.surrounding_env) ∧
      strContains (strVal (Option.bind profile Farmerprofile.surrounding_env)) "forest" = true
    then [forestTip] else []) ++
  (if present (Option.bind obs Farmobservation.wind_kph) ∧
      30 < floatVal (Option.bind obs Farmobservation.wind_kph) then [windTip] else []) ++
  (if present (Option.bind obs Farmobservation.temp_c) ∧
      35 < floatVal (Option.bind obs Farmobservation.temp_c) then [heatTip] else []) ++
  (if present (Option.bind obs Farmobservation.temp_c) ∧
      floatVal (Option.bind obs Farmobservation.temp_c) ≠ 0 ∧
      floatVal (Option.bind obs Farmobservation.temp_c) < 10 then [coldTip] else [])

/-- Claim C3's fungal severity as worded: `"high"` when humidity is
present and ≥ 80, `"medium"` when present and in `[60, 80)`, `"low"`
otherwise (including absent humidity). -/
def claimC3fungal (humidity : Option ℚ) : String :=
  if present humidity ∧ 80 ≤ floatVal humidity then "high"
  else if present humidity ∧ 60 ≤ floatVal humidity ∧ floatVal humidity < 80 then "medium"
  else "low"

/-- Claim C4's crop resolution as worded: the observation's `target_crop`
if present, else the last entry of the profile's crop history if present,
else `"wheat"`; lower-cased. -/
def claimC4crop (profile : Option Farmerprofile) (obs : Option Farmobservation) : String :=
  lowerStr
    (match Option.bind obs Farmobservation.target_crop with
     | some c => c
     | none =>
       match Option.bind (Option.bind profile Farmerprofile.crop_history) List.getLast? with
       | some c => c
       | none => "wheat")

/-- The C4 crop resolution as amended: the observation's `target_crop`
only counts when present *and non-empty* (Python truthiness). -/
def amendedC4crop (profile : Option Farmerprofile) (obs : Option Farmobservation) : String :=
  lowerStr
    (match Option.bind obs Farmobservation.target_crop with
     | some c =>
       if c = "" then
         match Option.bind (Option.bind profile Farmerprofile.crop_history) List.getLast? with
         | some h => h
         | none => "wheat"
       else c
     | none =>
       match Option.bind (Option.bind profile Farmerprofile.crop_history) List.getLast? with
       | some h => h
       | none => "wheat")

/-- Claim C4's fixed base-yield table, keyed case-insensitively by the
already lower-cased crop, unknown crops giving 3000. -/
def claimC4base (crop : String) : ℚ :=
  if crop = "wheat" then 3500
  else if crop = "rice" then 4500
  else if crop = "maize" then 5000
  else if crop = "soybean" then 2500
  else if crop = "cotton" then 2200
  else if crop = "potato" then 20000
  else if crop = "tomato" then 30000
  else 3000

/-- Claim C6's schedule as worded, a function of the profile's soil type,
the profile's irrigation method and the observed rainfall: default 3/20;
case-sensitive soil-type match; rainfall note when rainfall is present
and ≥ 15; drip note when the method equals `"drip"`; notes in that order,
never changing frequency or amount. -/
def claimC6schedule (soil_type irrigation_method : Option String)
    (rainfall_mm : Option ℚ) : Schedule :=
  let s : Schedule :=
    if soil_type = some "sandy" ∨ soil_type = some "sandy loam" ∨
        soil_type = some "loamy sand" then
      { frequency_days := 2, amount_mm := 15, notes := [sandyNote] }
    else if soil_type = some "loam" ∨ soil_type = some "loamy" then
      { frequency_days := 3, amount_mm := 20, notes := [] }
    else if soil_type = some "clay" ∨ soil_type = some "clayey" ∨
        soil_type = some "silty clay" then
      { frequency_days := 4, amount_mm := 25, notes := [clayNote] }
    else { frequency_days := 3, amount_mm := 20, notes := [] }
  let s : Schedule :=
    if present rainfall_mm ∧ 15 ≤ floatVal rainfall_mm then
      { s with notes := s.notes ++ [rainNote] }
    else s
  if irrigation_method = some "drip" then { s with notes := s.notes ++ [dripNote] } else s

/-- Claim C8's last crop as worded: the lower-cased last entry of the
crop history, or none when the profile or its history is absent/empty. -/
def claimC8last (profile : Option Farmerprofile) : Option String :=
  Option.map lowerStr
    (Option.bind (Option.bind profile Farmerprofile.crop_history) List.getLast?)

/-- Claim C8's rotation lists keyed by the last crop. -/
def claimC8plan (lastCrop : Option String) : List String :=
  if lastCrop = some "rice" ∨ lastCrop = some "wheat" ∨ lastCrop = some "maize" then
    rotationAfterCereal
  else if lastCrop = some "cotton" ∨ lastCrop = some "sugarcane" then rotationAfterCashCrop
  else rotationDefault

/-! ### Shared helper lemmas -/

/-- The positive-branch rounding always yields a nonnegative rational. -/
theorem flPos_nonneg (q : ℚ) : 0 ≤ flPos q := by
  unfold flPos
  dsimp only
  split_ifs <;> exact Rat.mkRat_nonneg (Int.natCast_nonneg _) _

/-- Binary64 rounding preserves nonnegativity. -/
theorem fl_nonneg {q : ℚ} (h : 0 ≤ q) : 0 ≤ fl q := by
  unfold fl
  split_ifs with h0 hneg
  · exact le_refl 0
  · linarith
  · exact flPos_nonneg q

/-- Exact multiplication preserves nonnegativity. -/
theorem qMul_nonneg {a b : ℚ} (ha : 0 ≤ a) (hb : 0 ≤ b) : 0 ≤ qMul a b := by
  unfold qMul
  exact Rat.mkRat_nonneg (mul_nonneg (Rat.num_nonneg.mpr ha) (Rat.num_nonneg.mpr hb)) _

/-- Truncation toward zero preserves nonnegativity. -/
theorem pyInt_nonneg {q : ℚ} (h : 0 ≤ q) : 0 ≤ pyInt q := by
  unfold pyInt
  rw [if_pos h]
  exact Int.floor_nonneg.mpr h

/-- The yield modifier always lies in `[0.69, 1.06]` (its true extremes
are the binary64 neighbours of 0.70 and of 1.05). -/
theorem modifier_bounds (soil : Option Soiltest) (obs : Option Farmobservation) :
    mkRat 69 100 ≤ modifierOf soil obs ∧ modifierOf soil obs ≤ mkRat 53 50 := by
  unfold modifierOf
  dsimp only
  split_ifs <;> exact ⟨by decide, by decide⟩

/-- The lookup in the base-yield table agrees with claim C4's table. -/
theorem baseFor_eq_claim (c : String) : baseFor c = claimC4base c := by
  by_cases h1 : c = "wheat"
  · subst h1; decide
  by_cases h2 : c = "rice"
  · subst h2; decide
  by_cases h3 : c = "maize"
  · subst h3; decide
  by_cases h4 : c = "soybean"
  · subst h4; decide
  by_cases h5 : c = "cotton"
  · subst h5; decide
  by_cases h6 : c = "potato"
  · subst h6; decide
  by_cases h7 : c = "tomato"
  · subst h7; decide
  unfold baseFor base_yields claimC4base
  simp [List.lookup, beq_eq_false_iff_ne.mpr h1, beq_eq_false_iff_ne.mpr h2,
    beq_eq_false_iff_ne.mpr h3, beq_eq_false_iff_ne.mpr h4, beq_eq_false_iff_ne.mpr h5,
    beq_eq_false_iff_ne.mpr h6, beq_eq_false_iff_ne.mpr h7, h1, h2, h3, h4, h5, h6, h7]

/-- Every base yield is nonnegative. -/
theorem baseFor_nonneg (c : String) : 0 ≤ baseFor c := by
  rw [baseFor_eq_claim]
  unfold claimC4base
  split_ifs <;> decide

/-- Truthiness absorption: a lower bound by a positive constant already
forces the value nonzero. -/
theorem truthy_and_le_iff (x : Option ℚ) (c : ℚ) (hc : 0 < c) :
    (floatTruthy x ∧ c ≤ floatVal x) ↔ (present x ∧ c ≤ floatVal x) := by
  constructor
  · rintro ⟨⟨h1, _⟩, h3⟩
    exact ⟨h1, h3⟩
  · rintro ⟨h1, h3⟩
    exact ⟨⟨h1, fun h0 => by rw [h0] at h3; linarith⟩, h3⟩

/-- Truthiness absorption: a strict lower bound by a nonnegative constant
already forces the value nonzero. -/
theorem truthy_and_lt_iff (x : Option ℚ) (c : ℚ) (hc : 0 ≤ c) :
    (floatTruthy x ∧ c < floatVal x) ↔ (present x ∧ c < floatVal x) := by
  constructor
  · rintro ⟨⟨h1, _⟩, h3⟩
    exact ⟨h1, h3⟩
  · rintro ⟨h1, h3⟩
    exact ⟨⟨h1, fun h0 => by rw [h0] at h3; linarith⟩, h3⟩

/-- Containing `"forest"` already forces the string non-empty. -/
theorem forest_cond_iff (env : Option String) :
    (strTruthy env ∧ strContains (strVal env) "forest" = true) ↔
      (present env ∧ strContains (strVal env) "forest" = true) := by
  constructor
  · rintro ⟨⟨h1, _⟩, h3⟩
    exact ⟨h1, h3⟩
  · rintro ⟨h1, h3⟩
    refine ⟨⟨h1, fun h0 => ?_⟩, h3⟩
    rw [h0] at h3
    exact absurd h3 (by decide)

/-- The modifier computed by the source equals the amended claim's
modifier. -/
theorem modifier_eq_amended (soil : Option Soiltest) (obs : Option Farmobservation) :
    modifierOf soil obs = amendedC1modifier soil obs := by
  unfold modifierOf amendedC1modifier
  dsimp only
  simp only [truthy_and_le_iff _ 2 (by decide), truthy_and_lt_iff _ 85 (by decide)]
  simp only [floatTruthy, and_assoc]

/-- The source's truthy crop-history fallback equals the claim's
last-entry fallback. -/
theorem hist_fallback_eq (p : Option Farmerprofile) :
    (if listTruthy (Option.bind p Farmerprofile.crop_history) then
        (listVal (Option.bind p Farmerprofile.crop_history)).getLastD ""
      else "wheat")
      = (match Option.bind (Option.bind p Farmerprofile.crop_history) List.getLast? with
         | some h => h
         | none => "wheat") := by
  rcases hch : Option.bind p Farmerprofile.crop_history with _ | l
  · simp [listTruthy, present, listVal]
  · rcases l with _ | ⟨a, t⟩
    · simp [listTruthy, present, listVal]
    · simp only [listTruthy, present, listVal, Option.getD_some]
      rw [if_pos ⟨by simp, by simp⟩, List.getLastD_eq_getLast?]
      simp only [Option.some_bind]
      rcases hg : (a :: t).getLast? with _ | x
      · simp at hg
      · rfl

/-- The source's crop resolution equals the amended C4 resolution. -/
theorem resolveCrop_eq_amended (p : Option Farmerprofile) (o : Option Farmobservation) :
    resolveCrop p o = amendedC4crop p o := by
  unfold resolveCrop amendedC4crop
  rcases htc : Option.bind o Farmobservation.target_crop with _ | c
  · rw [if_neg (by simp [strTruthy, present])]
    exact congrArg lowerStr (hist_fallback_eq p)
  · simp only [strTruthy, present, strVal, Option.getD_some]
    by_cases hc : c = ""
    · subst hc
      rw [if_neg (by simp), if_pos rfl]
      exact congrArg lowerStr (hist_fallback_eq p)
    · rw [if_pos ⟨by simp, hc⟩, if_neg hc]

/-! ### Claim theorems -/

/-- Claim C5: with no profile, no soil test and a default observation (the
state `/analyze` reaches when the farmer id matches nothing), every engine
function returns a complete well-formed result; every absent-field rule is
skipped. -/
theorem engine_total_on_absent_inputs :
    simple_disease_pest_risk {} =
      { disease_fungal_general := "low", disease_washout_root_rot := none,
        disease_observed_signs := none, pest_borers_aphids_general := none,
        pest_observed_signs := none } ∧
    irrigation_schedule none none (some {}) =
      { frequency_days := 3, amount_mm := 20, notes := [] } ∧
    climate_advice none (some {}) = [mulchTip, ipmTip] ∧
    simple_yield_forecast none none (some {}) =
      { crop := "wheat", yield_kg_per_ha := 3500 } ∧
    rotation_plan none = rotationDefault ∧
    market_trends none none = [
      { crop := "wheat", avg_price := mkRat 43 2, unit := "INR/kg", demand := "rising",
        location := none },
      { crop := "tomato", avg_price := mkRat 3996944669291315 281474976710656,
        unit := "INR/kg", demand := "stable", location := none },
      { crop := "onion", avg_price := mkRat 5263582064489267 281474976710656,
        unit := "INR/kg", demand := "high", location := none }] := by
  decide

/-- Claim C10: every schedule has frequency in `{2, 3, 4}`, amount in
`{15, 20, 25}` and at most three notes. -/
theorem schedule_invariants (p : Option Farmerprofile) (s : Option Soiltest)
    (o : Option Farmobservation) :
    (irrigation_schedule p s o).frequency_days ∈ [2, 3, 4] ∧
    (irrigation_schedule p s o).amount_mm ∈ [15, 20, 25] ∧
    (irrigation_schedule p s o).notes.length ≤ 3 := by
  unfold irrigation_schedule
  dsimp only
  split_ifs <;> decide

/-- Claim C9, refuted: no soil test and observation make the yield
modifier negative. -/
theorem modifier_never_negative :
    ¬ ∃ (s : Option Soiltest) (o : Option Farmobservation), modifierOf s o < 0 := by
  rintro ⟨s, o, h⟩
  have hb := (modifier_bounds s o).1
  have h0 : (0 : ℚ) ≤ mkRat 69 100 := by decide
  linarith

/-- Claim C9 as amended: the modifier is never negative — it always lies
in `[0.69, 1.06]` — and the forecast yield is never negative, so no
clamping is ever exercised. -/
theorem modifier_and_yield_nonnegative (p : Option Farmerprofile) (s : Option Soiltest)
    (o : Option Farmobservation) :
    mkRat 69 100 ≤ modifierOf s o ∧ modifierOf s o ≤ mkRat 53 50 ∧
    0 ≤ (simple_yield_forecast p s o).yield_kg_per_ha := by
  refine ⟨(modifier_bounds s o).1, (modifier_bounds s o).2, ?_⟩
  unfold simple_yield_forecast
  dsimp only
  apply pyInt_nonneg
  unfold fMul
  apply fl_nonneg
  apply qMul_nonneg (baseFor_nonneg _)
  have hb := (modifier_bounds s o).1
  have h0 : (0 : ℚ) ≤ mkRat 69 100 := by decide
  linarith

/-- Claim C7: the irrigation schedule depends only on the profile's soil
type, the profile's irrigation method and the observed rainfall — in
particular the soil test is ignored — and soil type `"clay"` always gives
frequency 4, amount 25 and the clay note. -/
theorem irrigation_depends_only_on_projections (p1 p2 : Option Farmerprofile)
    (s1 s2 : Option Soiltest) (o1 o2 : Option Farmobservation)
    (hsoil : Option.bind p1 Farmerprofile.soil_type = Option.bind p2 Farmerprofile.soil_type)
    (hmeth : Option.bind p1 Farmerprofile.irrigation_method
      = Option.bind p2 Farmerprofile.irrigation_method)
    (hrain : Option.bind o1 Farmobservation.rainfall_mm
      = Option.bind o2 Farmobservation.rainfall_mm) :
    irrigation_schedule p1 s1 o1 = irrigation_schedule p2 s2 o2 ∧
    (Option.bind p1 Farmerprofile.soil_type = some "clay" →
      (irrigation_schedule p1 s1 o1).frequency_days = 4 ∧
      (irrigation_schedule p1 s1 o1).amount_mm = 25 ∧
      clayNote ∈ (irrigation_schedule p1 s1 o1).notes) := by
  constructor
  · unfold irrigation_schedule
    rw [hsoil, hmeth, hrain]
  · intro hclay
    clear hsoil hmeth hrain
    unfold irrigation_schedule
    rw [hclay]
    dsimp only
    split_ifs <;> simp_all

/-- Witness for claim C7: two different profiles and soil tests agreeing
on the three relevant projections produce the same clay schedule. -/
theorem irrigation_depends_only_on_projections_witness :
    irrigation_schedule (some { name := "a", soil_type := some "clay" }) none (some {}) =
      irrigation_schedule (some { name := "b", soil_type := some "clay" })
        (some { ph := some 7 }) none ∧
    (Option.bind (some { name := "a", soil_type := some "clay" })
        Farmerprofile.soil_type = some "clay" →
      (irrigation_schedule (some { name := "a", soil_type := some "clay" }) none
          (some {})).frequency_days = 4 ∧
      (irrigation_schedule (some { name := "a", soil_type := some "clay" }) none
          (some {})).amount_mm = 25 ∧
      clayNote ∈ (irrigation_schedule (some { name := "a", soil_type := some "clay" }) none
          (some {})).notes) :=
  irrigation_depends_only_on_projections
    (some { name := "a", soil_type := some "clay" })
    (some { name := "b", soil_type := some "clay" })
    none (some { ph := some 7 }) (some {}) none
    (by decide) (by decide) (by decide)

/-- Claim C1, refuted at two concrete inputs: on the claim's own example
(pH 9, humidity 90, wheat) the code returns 2799 while the claim's exact
additive modifier gives 2800 (binary64 rounding loses 1); and at pH 0.0
(present and outside `[5.5, 8.5]`) the code applies no adjustment (Python
truthiness) while the claim requires one. -/
theorem yield_claim_counterexample :
    ((simple_yield_forecast none (some { ph := some 9 })
        (some { humidity_pct := some 90 })).yield_kg_per_ha = 2799 ∧
      claimC1yield none (some { ph := some 9 }) (some { humidity_pct := some 90 }) = 2800 ∧
      (2799 : ℤ) ≠ 2800) ∧
    ((simple_yield_forecast none (some { ph := some 0 }) none).yield_kg_per_ha = 3500 ∧
      claimC1yield none (some { ph := some 0 }) none = 2975 ∧
      (3500 : ℤ) ≠ 2975) := by
  decide

/-- Claim C1 as amended: the modifier starts at 1.0 and each adjustment
is applied, in binary64 arithmetic, exactly when its condition holds on a
present *and nonzero* field (nonzero is only a real restriction for pH and
rainfall); the returned yield is the binary64 product base × modifier
truncated toward zero.  On the claim's example (pH 9, humidity 90, wheat)
the modifier is the double just below 0.80 and the yield is 2799. -/
theorem yield_formula_amended (p : Option Farmerprofile) (s : Option Soiltest)
    (o : Option Farmobservation) :
    (simple_yield_forecast p s o).yield_kg_per_ha
        = pyInt (fMul (baseFor (resolveCrop p o)) (amendedC1modifier s o)) ∧
    simple_yield_forecast none (some { ph := some 9 }) (some { humidity_pct := some 90 })
        = { crop := "wheat", yield_kg_per_ha := 2799 } := by
  constructor
  · unfold simple_yield_forecast
    rw [modifier_eq_amended]
  · decide

/-- Claim C2, refuted at a concrete input: at temperature 0.0 °C (present
and below 10) the cold-stress tip is not appended, because Python
truthiness treats the value 0.0 like an absent field. -/
theorem climate_claim_counterexample :
    climate_advice none (some { temp_c := some 0 }) = [mulchTip, ipmTip] ∧
    claimC2tips none (some { temp_c := some 0 }) ++ [mulchTip, ipmTip]
      = [coldTip, mulchTip, ipmTip] ∧
    ([mulchTip, ipmTip] : List String) ≠ [coldTip, mulchTip, ipmTip] := by
  decide

/-- Claim C2 as amended: each conditional tip is appended, in the fixed
order, exactly when its condition holds, where the cold-stress condition
additionally requires a nonzero temperature (the other three conditions
already force their field nonzero/non-empty); the two unconditional tips
follow. -/
theorem climate_tips_amended (p : Option Farmerprofile) (o : Option Farmobservation) :
    climate_advice p o = amendedC2tips p o ++ [mulchTip, ipmTip] := by
  unfold climate_advice amendedC2tips
  dsimp only
  simp only [forest_cond_iff, truthy_and_lt_iff _ 30 (by decide),
    truthy_and_lt_iff _ 35 (by decide)]
  simp only [floatTruthy, and_assoc]
  split_ifs <;> rfl

/-- Claim C3: the fungal risk is always exactly one of low/medium/high:
high when humidity is present and ≥ 80, medium when present and in
`[60, 80)`, low otherwise (including absent — and also at the truthiness
edge humidity = 0.0, which the low branch absorbs). -/
theorem fungal_severity_matches_claim (obs : Farmobservation) :
    (simple_disease_pest_risk obs).disease_fungal_general = claimC3fungal obs.humidity_pct ∧
    (simple_disease_pest_risk obs).disease_fungal_general ∈ ["low", "medium", "high"] := by
  have h : (simple_disease_pest_risk obs).disease_fungal_general
      = claimC3fungal obs.humidity_pct := by
    unfold simple_disease_pest_risk claimC3fungal
    dsimp only
    rcases hv : obs.humidity_pct with _ | v
    · simp [floatTruthy, present, floatVal]
    · simp only [floatTruthy, present, floatVal, Option.getD_some, ne_eq, Option.some_ne_none,
        not_false_eq_true, true_and]
      rcases eq_or_ne v 0 with rfl | hv0
      · norm_num
      · simp only [hv0, not_false_eq_true, true_and]
        rcases le_or_lt 80 v with h80 | h80
        · simp [h80]
        · simp [h80, not_le.mpr h80]
  refine ⟨h, ?_⟩
  rw [h]
  unfold claimC3fungal
  split_ifs <;> simp

/-- Claim C4, refuted at a concrete input: an empty-string `target_crop`
is present, so the claim resolves the crop to `""` (base 3000), but the
code treats it as falsy and falls back to `"wheat"`. -/
theorem crop_resolution_counterexample :
    resolveCrop none (some { target_crop := some "" }) = "wheat" ∧
    claimC4crop none (some { target_crop := some "" }) = "" ∧
    ("wheat" : String) ≠ "" := by
  decide

/-- Claim C4 as amended: the crop is the observation's `target_crop` when
present *and non-empty*, else the last entry of the profile's crop history
when present, else `"wheat"`, lower-cased; the base-yield lookup is
case-insensitive against the fixed table with unknown crops giving 3000;
`target_crop = "rice"` with no profile and no soil test yields
`{crop := "rice", yield := 4500}`. -/
theorem crop_resolution_amended (p : Option Farmerprofile) (o : Option Farmobservation)
    (c : String) :
    resolveCrop p o = amendedC4crop p o ∧
    (simple_yield_forecast p none o).crop = amendedC4crop p o ∧
    baseFor c = claimC4base c ∧
    simple_yield_forecast none none (some { target_crop := some "rice" })
      = { crop := "rice", yield_kg_per_ha := 4500 } := by
  refine ⟨resolveCrop_eq_amended p o, ?_, baseFor_eq_claim c, by decide⟩
  unfold simple_yield_forecast
  exact resolveCrop_eq_amended p o

/-- Claim C6: the irrigation schedule equals the claim's description —
default 3 days / 20 mm; case-sensitive exact soil-type match giving 2/15
plus a note for sandy soils, 3/20 silently for loam, 4/25 plus a note for
clay; unknown or absent soil type keeps the default silently; then a
rainfall note exactly when rainfall is present and ≥ 15, then a drip note
exactly when the method is `"drip"`, neither changing frequency or
amount. -/
theorem irrigation_matches_claim (p : Option Farmerprofile) (s : Option Soiltest)
    (o : Option Farmobservation) :
    irrigation_schedule p s o
      = claimC6schedule (Option.bind p Farmerprofile.soil_type)
          (Option.bind p Farmerprofile.irrigation_method)
          (Option.bind o Farmobservation.rainfall_mm) := by
  unfold irrigation_schedule claimC6schedule
  dsimp only
  simp only [truthy_and_le_iff _ 15 (by decide), List.mem_cons, List.not_mem_nil, or_false]

/-- Claim C8: the rotation plan is keyed by the lower-cased last entry of
the crop history (none when profile/history absent or empty): the
legume/oilseed/vegetable list after rice/wheat/maize, the
pulse/cereal/forage list after cotton/sugarcane, and the generic default
otherwise; in particular `["Maize"]` gives the first list. -/
theorem rotation_matches_claim (p : Option Farmerprofile) :
    rotation_plan p = claimC8plan (claimC8last p) ∧
    rotation_plan (some { name := "m", crop_history := some ["Maize"] })
      = rotationAfterCereal := by
  refine ⟨?_, by decide⟩
  unfold rotation_plan claimC8plan claimC8last
  dsimp only
  have hlast : (if listTruthy (Option.bind p Farmerprofile.crop_history) then
        some (lowerStr ((listVal (Option.bind p Farmerprofile.crop_history)).getLastD ""))
      else none)
      = Option.map lowerStr
          (Option.bind (Option.bind p Farmerprofile.crop_history) List.getLast?) := by
    rcases hch : Option.bind p Farmerprofile.crop_history with _ | l
    · simp [listTruthy, present, listVal]
    · rcases l with _ | ⟨a, t⟩
      · simp [listTruthy, present, listVal]
      · simp only [listTruthy, present, listVal, Option.getD_some, Option.some_bind]
        rw [if_pos ⟨by simp, by simp⟩, List.getLastD_eq_getLast?]
        rcases hg : (a :: t).getLast? with _ | x
        · simp at hg
        · rfl
  rw [hlast]
  simp only [List.mem_cons, List.not_mem_nil, or_false]

end Farm
